import Mathlib

/-!
# Nu runtime core (`runtime/nu_core.hpp`) and emitted test programs

A shallow embedding of the C++23 runtime shim of nu-lang and of the three
emitted test programs that accompany it.

* Statement-level control flow (normal completion, `return`, a propagating
  exception, a thread that never comes back from a host call) is explicit
  state passing: a statement maps a state to a `Flow` and a new state.
* `NU_TRY` and `NU_UNWRAP` are the two statement-expression macros.
* `Mutex<T>` / `RwLock<T>` live in a heap of objects addressed by `Nat`;
  references (`std::mutex&`, `T&`) are addresses. The host primitives
  `std::mutex` and `std::shared_mutex` are modelled as seen by the calling
  thread, with two ghost counters that record every acquisition and release.
* `std::size_t` is a natural number below `2 ^ 64`, every operation reduced
  modulo `2 ^ 64`.
-/

namespace nu

/-! ## Error type and two-state result -/

/-- The general error type `nu::Error`: one message string. -/
structure Error where
  message : String
deriving DecidableEq, Repr

/-- The accessor `Error::what()`. -/
def Error.what (e : Error) : String := e.message

/-- The container `std::expected<T, E>`: a success holding a `T` or a failure
holding an `E`. -/
inductive Expected (T E : Type) where
  | value (v : T)
  | unexpected (e : E)
deriving DecidableEq, Repr

/-- The observer `std::expected::has_value()`. -/
def Expected.has_value {T E : Type} : Expected T E → Bool
  | .value _ => true
  | .unexpected _ => false

/-! ## Control flow of statements -/

/-- How the evaluation of a statement or expression inside a function whose
return type is `R` ends.

* `normal a`: it produced `a`; control goes on with the next statement.
* `returned r`: a `return` statement ran; the enclosing function's result is `r`.
* `thrown what`: an exception derived from `std::exception` is propagating
  (stack unwinding); `what` is its `what()` text.
* `blocked`: the thread is stuck inside a host call and never proceeds. -/
inductive Flow (R α : Type) where
  | normal (a : α)
  | returned (r : R)
  | thrown (what : String)
  | blocked
deriving DecidableEq, Repr

/-- A statement (or expression with effects) over program state `σ`, inside a
function returning `R`, producing an `α` when it completes normally. -/
def Stmt (σ R α : Type) : Type := σ → Flow R α × σ

/-- An expression without effects. -/
def Stmt.pure {σ R α : Type} (a : α) : Stmt σ R α := fun s => (.normal a, s)

/-- Sequencing `c; k`: the rest `k` runs only when `c` completes normally. -/
def Stmt.seq {σ R α β : Type} (c : Stmt σ R α) (k : α → Stmt σ R β) : Stmt σ R β := fun s =>
  match c s with
  | (.normal a, s1) => k a s1
  | (.returned r, s1) => (.returned r, s1)
  | (.thrown what, s1) => (.thrown what, s1)
  | (.blocked, s1) => (.blocked, s1)

/-- The macro `NU_TRY(expr)` used in a function returning `std::expected<R, E>`:
```
auto&& _result = (expr);
if (!_result.has_value()) { return std::unexpected(_result.error()); }
std::move(_result.value());
```
The value is moved out of `_result`; what is left in `_result` owns nothing
when the macro ends. -/
def NU_TRY {σ R T E : Type} (expr : Stmt σ (Expected R E) (Expected T E)) :
    Stmt σ (Expected R E) T := fun s =>
  match expr s with
  | (.normal _result, s1) =>
    match _result with
    | .unexpected e => (.returned (.unexpected e), s1)
    | .value v => (.normal v, s1)
  | (.returned r, s1) => (.returned r, s1)
  | (.thrown what, s1) => (.thrown what, s1)
  | (.blocked, s1) => (.blocked, s1)

/-- The character NUL, which ends a C string. -/
def NUL : Char := Char.ofNat 0

/-- The text read from `std::string::c_str()` as a C string: the characters
before the first NUL. This is what `std::exception::what()` gives for an
exception built from the string. -/
def c_str (msg : String) : String := String.mk (msg.data.takeWhile (fun c => c ≠ NUL))

/-- The macro `NU_UNWRAP(expr)`:
```
auto&& _result = (expr);
if (!_result.has_value()) { throw std::runtime_error(_result.error().message); }
std::move(_result.value());
```
The `what()` of the `std::runtime_error` is the message read as a C string. -/
def NU_UNWRAP {σ R T : Type} (expr : Stmt σ R (Expected T Error)) : Stmt σ R T := fun s =>
  match expr s with
  | (.normal _result, s1) =>
    match _result with
    | .unexpected e => (.thrown (c_str e.message), s1)
    | .value v => (.normal v, s1)
  | (.returned r, s1) => (.returned r, s1)
  | (.thrown what, s1) => (.thrown what, s1)
  | (.blocked, s1) => (.blocked, s1)

/-- The call of a function whose body is `body`, seen from the caller: a
`return r` inside the body (and the value of its trailing `return`, the normal
value of `body`) becomes the value of the call expression; an exception or a
blocked thread passes through. -/
def call {σ R C : Type} (body : Stmt σ R R) : Stmt σ C R := fun s =>
  match body s with
  | (.normal r, s1) => (.normal r, s1)
  | (.returned r, s1) => (.normal r, s1)
  | (.thrown what, s1) => (.thrown what, s1)
  | (.blocked, s1) => (.blocked, s1)

/-- A block `{ auto guard = init; body }` whose local `guard` has the
destructor `dtor`: the destructor runs when control leaves the block, whether
by normal completion, by `return`, or by a propagating exception; it does not
run when the initialiser did not produce the guard or the thread never leaves
the block. -/
def scope {σ R G α : Type} (dtor : G → σ → σ) (init : Stmt σ R G) (body : G → Stmt σ R α) :
    Stmt σ R α := fun s =>
  match init s with
  | (.normal guard, s1) =>
    match body guard s1 with
    | (.normal a, s2) => (.normal a, dtor guard s2)
    | (.returned r, s2) => (.returned r, dtor guard s2)
    | (.thrown what, s2) => (.thrown what, dtor guard s2)
    | (.blocked, s2) => (.blocked, s2)
  | (.returned r, s1) => (.returned r, s1)
  | (.thrown what, s1) => (.thrown what, s1)
  | (.blocked, s1) => (.blocked, s1)

/-- Instrumentation: run `c` on the program state and append `label` to a
ghost log of the call sites that were evaluated. -/
def traced {σ R α : Type} (label : String) (c : Stmt σ R α) : Stmt (σ × List String) R α :=
  fun s =>
    match c s.1 with
    | (fl, s1) => (fl, (s1, s.2 ++ [label]))

/-- A function body with two sequential propagation sites followed by further
computation:
```
auto a = NU_TRY(f);  auto b = NU_TRY(g(a));  return rest(a, b);
```
Every call site logs its label when it is evaluated. -/
def two_try_body {σ R A B E : Type} (f : Stmt σ (Expected R E) (Expected A E))
    (g : A → Stmt σ (Expected R E) (Expected B E))
    (rest : A → B → Stmt σ (Expected R E) (Expected R E)) :
    Stmt (σ × List String) (Expected R E) (Expected R E) :=
  Stmt.seq (NU_TRY (traced "f" f)) (fun a =>
    Stmt.seq (NU_TRY (traced "g" (g a))) (fun b =>
      traced "rest" (rest a b)))

/-! ## `temp_test.cpp`: the calculator's operator and error types -/

/-- The scoped enumeration `enum class Operator`. -/
inductive Operator where
  | Add
  | Subtract
  | Multiply
  | Divide
deriving DecidableEq, Repr

/-- The alias `CalcError = std::variant<DivisionByZero, InvalidOperator, ParseError>`;
`InvalidOperator` and `ParseError` each carry the string member `_0`. -/
inductive CalcError where
  | DivisionByZero
  | InvalidOperator (_0 : String)
  | ParseError (_0 : String)
deriving DecidableEq, Repr

/-- Modelled from the spec: the body of `Operator::from_str`, of which
`temp_test.cpp` holds only the signature
`std::expected<Operator, CalcError> from_str(...)`. The four operator tokens
convert; every other token, `"%"` among them, fails with `InvalidOperator`
carrying the token. -/
def from_str (s : String) : Expected Operator CalcError :=
  if s = "+" then .value .Add
  else if s = "-" then .value .Subtract
  else if s = "*" then .value .Multiply
  else if s = "/" then .value .Divide
  else .unexpected (.InvalidOperator s)

/-! ## The host lock `std::mutex` -/

/-- The threads of the model: the calling thread and any other thread. -/
inductive Thread where
  | self
  | other
deriving DecidableEq, Repr

/-- A `std::mutex` as seen by the calling thread.

* `owner`: the thread that holds it, `none` when it is available.
* `fault`: a pending failure of the host primitive; `some what` makes the next
  blocking acquire throw `std::system_error` whose `what()` is `what`.
* `acquired`, `released`: ghost counters of the successful acquisitions and of
  the releases performed so far. -/
structure StdMutex where
  owner : Option Thread
  fault : Option String
  acquired : Nat
  released : Nat
deriving DecidableEq, Repr

/-- The host call `std::mutex::lock()`: throws when the host reports a failure;
takes the mutex when it is available; otherwise the caller waits. In this
sequential trace no other thread releases, and re-locking a `std::mutex` the
caller already owns deadlocks, so the wait never ends. -/
def StdMutex.lock {R : Type} (m : StdMutex) : Flow R Unit × StdMutex :=
  match m.fault with
  | some what => (.thrown what, m)
  | none =>
    match m.owner with
    | none => (.normal (), { m with owner := some .self, acquired := m.acquired + 1 })
    | some _ => (.blocked, m)

/-- The host call `std::mutex::try_lock()`: never waits and never throws. -/
def StdMutex.try_lock (m : StdMutex) : Bool × StdMutex :=
  match m.owner with
  | none => (true, { m with owner := some .self, acquired := m.acquired + 1 })
  | some _ => (false, m)

/-- The host call `std::mutex::unlock()`. -/
def StdMutex.unlock (m : StdMutex) : StdMutex :=
  { m with owner := none, released := m.released + 1 }

/-! ## `Mutex<T>` -/

/-- The class `Mutex<T>`: the host lock `_mtx` and the protected `_data`. -/
structure Mutex (T : Type) where
  _mtx : StdMutex
  _data : T
deriving DecidableEq, Repr

/-- The heap of `Mutex<T>` objects; an address stands for a reference to the
object, to its `_mtx`, or to its `_data`. -/
def World (T : Type) : Type := Nat → Mutex T

/-- Store a new host-lock state into the object at address `m`. -/
def World.set_mtx {T : Type} (w : World T) (m : Nat) (mtx : StdMutex) : World T :=
  Function.update w m { w m with _mtx := mtx }

/-- Store a new payload into the object at address `d`. -/
def World.set_data {T : Type} (w : World T) (d : Nat) (v : T) : World T :=
  Function.update w d { w d with _data := v }

/-- A `std::unique_lock<std::mutex>`: the mutex it is bound to and whether it
owns the lock. -/
structure UniqueLock where
  pm : Nat
  owns : Bool
deriving DecidableEq, Repr

/-- The constructor `std::unique_lock(m)`: calls `m.lock()`. -/
def UniqueLock.ctor {T R : Type} (m : Nat) : Stmt (World T) R UniqueLock := fun w =>
  match (w m)._mtx.lock with
  | (.normal _, mtx) => (.normal { pm := m, owns := true }, w.set_mtx m mtx)
  | (.returned r, mtx) => (.returned r, w.set_mtx m mtx)
  | (.thrown what, mtx) => (.thrown what, w.set_mtx m mtx)
  | (.blocked, mtx) => (.blocked, w.set_mtx m mtx)

/-- The destructor of `std::unique_lock`: unlocks when it owns the lock. -/
def UniqueLock.dtor {T : Type} (l : UniqueLock) (w : World T) : World T :=
  if l.owns then w.set_mtx l.pm (w l.pm)._mtx.unlock else w

/-- The class `Mutex<T>::LockGuard`: the owning `_lock` and the reference
`_ref` to the protected data. -/
structure LockGuard where
  _lock : UniqueLock
  _ref : Nat
deriving DecidableEq, Repr

/-- The constructor `LockGuard(std::mutex& m, T& d) : _lock(m), _ref(d)`. -/
def LockGuard.ctor {T R : Type} (m d : Nat) : Stmt (World T) R LockGuard :=
  Stmt.seq (UniqueLock.ctor m) (fun l => Stmt.pure { _lock := l, _ref := d })

/-- The implicit destructor of `LockGuard`: destroys `_lock`. -/
def LockGuard.dtor {T : Type} (g : LockGuard) (w : World T) : World T :=
  g._lock.dtor w

/-- The accessor `operator*` / `get()`: the referenced data. -/
def LockGuard.get {T : Type} (g : LockGuard) (w : World T) : T := (w g._ref)._data

/-- The assignment `*guard = v` through the reference. -/
def LockGuard.assign {T R : Type} (g : LockGuard) (v : T) : Stmt (World T) R Unit := fun w =>
  (.normal (), w.set_data g._ref v)

/-- The method `Mutex<T>::lock()`:
```
try { return LockGuard(_mtx, _data); }
catch (const std::exception& e) { return std::unexpected(Error(e.what())); }
```
-/
def Mutex.lock {T R : Type} (this : Nat) : Stmt (World T) R (Expected LockGuard Error) := fun w =>
  match LockGuard.ctor this this w with
  | (.normal g, w1) => (.normal (.value g), w1)
  | (.returned r, w1) => (.returned r, w1)
  | (.thrown what, w1) => (.normal (.unexpected (Error.mk what)), w1)
  | (.blocked, w1) => (.blocked, w1)

/-- The method `Mutex<T>::try_lock()`:
```
if (_mtx.try_lock()) { return LockGuard(_mtx, _data); }
return std::nullopt;
```
The guard is built by the same constructor as in `lock()`, which acquires
`_mtx` itself. -/
def Mutex.try_lock {T R : Type} (this : Nat) : Stmt (World T) R (Option LockGuard) := fun w =>
  match (w this)._mtx.try_lock with
  | (true, mtx) =>
    Stmt.seq (LockGuard.ctor this this) (fun g => Stmt.pure (some g)) (w.set_mtx this mtx)
  | (false, _) => (.normal none, w)

/-! ## `RwLock<T>` and the host lock `std::shared_mutex` -/

/-- A `std::shared_mutex` as seen by the calling thread: the exclusive holder,
the number of shared holders, a pending host failure, and ghost counters. -/
structure SharedMutex where
  writer : Option Thread
  readers : Nat
  fault : Option String
  acquired : Nat
  released : Nat
deriving DecidableEq, Repr

/-- The host call `std::shared_mutex::lock_shared()`. -/
def SharedMutex.lock_shared {R : Type} (m : SharedMutex) : Flow R Unit × SharedMutex :=
  match m.fault with
  | some what => (.thrown what, m)
  | none =>
    match m.writer with
    | none => (.normal (), { m with readers := m.readers + 1, acquired := m.acquired + 1 })
    | some _ => (.blocked, m)

/-- The host call `std::shared_mutex::lock()`. -/
def SharedMutex.lock {R : Type} (m : SharedMutex) : Flow R Unit × SharedMutex :=
  match m.fault with
  | some what => (.thrown what, m)
  | none =>
    match m.writer, m.readers with
    | none, 0 => (.normal (), { m with writer := some .self, acquired := m.acquired + 1 })
    | _, _ => (.blocked, m)

/-- The class `RwLock<T>`. -/
structure RwLock (T : Type) where
  _mtx : SharedMutex
  _data : T
deriving DecidableEq, Repr

/-- The heap of `RwLock<T>` objects. -/
def RwWorld (T : Type) : Type := Nat → RwLock T

/-- Store a new host-lock state into the object at address `m`. -/
def RwWorld.set_mtx {T : Type} (w : RwWorld T) (m : Nat) (mtx : SharedMutex) : RwWorld T :=
  Function.update w m { w m with _mtx := mtx }

/-- The class `RwLock<T>::ReadGuard`: a `std::shared_lock` (bound mutex,
ownership flag) and a `const T&`. -/
structure ReadGuard where
  _lock : UniqueLock
  _ref : Nat
deriving DecidableEq, Repr

/-- The class `RwLock<T>::WriteGuard`: a `std::unique_lock` and a `T&`. -/
structure WriteGuard where
  _lock : UniqueLock
  _ref : Nat
deriving DecidableEq, Repr

/-- The constructor `ReadGuard(std::shared_mutex& m, const T& d) : _lock(m), _ref(d)`;
`std::shared_lock(m)` calls `m.lock_shared()`. -/
def ReadGuard.ctor {T R : Type} (m d : Nat) : Stmt (RwWorld T) R ReadGuard := fun w =>
  match (w m)._mtx.lock_shared with
  | (.normal _, mtx) => (.normal { _lock := { pm := m, owns := true }, _ref := d }, w.set_mtx m mtx)
  | (.returned r, mtx) => (.returned r, w.set_mtx m mtx)
  | (.thrown what, mtx) => (.thrown what, w.set_mtx m mtx)
  | (.blocked, mtx) => (.blocked, w.set_mtx m mtx)

/-- The constructor `WriteGuard(std::shared_mutex& m, T& d) : _lock(m), _ref(d)`;
`std::unique_lock(m)` calls `m.lock()`. -/
def WriteGuard.ctor {T R : Type} (m d : Nat) : Stmt (RwWorld T) R WriteGuard := fun w =>
  match (w m)._mtx.lock with
  | (.normal _, mtx) => (.normal { _lock := { pm := m, owns := true }, _ref := d }, w.set_mtx m mtx)
  | (.returned r, mtx) => (.returned r, w.set_mtx m mtx)
  | (.thrown what, mtx) => (.thrown what, w.set_mtx m mtx)
  | (.blocked, mtx) => (.blocked, w.set_mtx m mtx)

/-- The accessor `ReadGuard::operator*`. -/
def ReadGuard.get {T : Type} (g : ReadGuard) (w : RwWorld T) : T := (w g._ref)._data

/-- The accessor `WriteGuard::operator*`. -/
def WriteGuard.get {T : Type} (g : WriteGuard) (w : RwWorld T) : T := (w g._ref)._data

/-- The method `RwLock<T>::read()`: `return ReadGuard(_mtx, _data);` with no
handler around the construction. -/
def RwLock.read {T R : Type} (this : Nat) : Stmt (RwWorld T) R (Expected ReadGuard Error) :=
  Stmt.seq (ReadGuard.ctor this this) (fun g => Stmt.pure (.value g))

/-- The method `RwLock<T>::write()`: `return WriteGuard(_mtx, _data);` with no
handler around the construction. -/
def RwLock.write {T R : Type} (this : Nat) : Stmt (RwWorld T) R (Expected WriteGuard Error) :=
  Stmt.seq (WriteGuard.ctor this this) (fun g => Stmt.pure (.value g))

/-! ## `hash_combine` -/

/-- The number of values of `std::size_t` (64-bit). -/
def SIZE_MOD : Nat := 2 ^ 64

/-- Addition of two `std::size_t` values. -/
def add64 (a b : Nat) : Nat := (a + b) % SIZE_MOD

/-- Left shift of a `std::size_t` value. -/
def shl64 (a n : Nat) : Nat := (a <<< n) % SIZE_MOD

/-- The function `hash_combine(seed, value)`, returning the new content of `seed`:
`seed ^= value + 0x9e3779b9 + (seed << 6) + (seed >> 2);` -/
def hash_combine (seed value : Nat) : Nat :=
  seed ^^^ add64 (add64 (add64 value 0x9e3779b9) (shl64 seed 6)) (seed >>> 2)

/-- The documented use in a `std::hash<T>` specialisation: start from
`seed = 0`, combine the hash of every component in order, return `seed`. -/
def structural_hash (components : List Nat) : Nat :=
  components.foldl hash_combine 0

/-! ## `test_for_enumerate.cpp` -/

/-- The loop `for (i, record) in history.iter().enumerate() { body }`: the
iterator yields the elements paired with their position, counted from zero,
and the body runs once for each pair. -/
def for_enumerate {α σ : Type} (history : List α) (body : Nat → α → σ → σ) (s : σ) : σ :=
  history.enum.foldl (fun acc p => body p.1 p.2 acc) s

/-- The function `test_enumerate`, with the output stream as the state and
`fmt` the rendering of a record by `operator<<`:
`std::cout << "Index: " << i << ", Record: " << record << std::endl;` -/
def test_enumerate {α : Type} (fmt : α → String) (history : List α) (out : String) : String :=
  for_enumerate history
    (fun i record acc => acc ++ "Index: " ++ toString i ++ ", Record: " ++ fmt record ++ "\n") out

/-- The counter loop of `lowered_enumerate`: while the counter `i` is a valid
position, run the body on `i` and the element at `i`, then increment `i`. -/
def counter_loop {α σ : Type} (history : List α) (body : Nat → α → σ → σ) : Nat → Nat → σ → σ
  | 0, _, s => s
  | fuel + 1, i, s =>
    match history[i]? with
    | some record => counter_loop history body fuel (i + 1) (body i record s)
    | none => s

/-- Modelled from the spec: the lowering of a for-enumerate loop, whose
translator is not among the sources: "an explicit zero-based counter paired
with element access, counter incremented once per iteration". -/
def lowered_enumerate {α σ : Type} (history : List α) (body : Nat → α → σ → σ) (s : σ) : σ :=
  counter_loop history body history.length 0 s

/-- The body that records what an iteration sees. -/
def record_visit {α : Type} (i : Nat) (record : α) (log : List (Nat × α)) : List (Nat × α) :=
  log ++ [(i, record)]

/-! ## `test_match_expression.cpp` -/

/-- The tagged union `enum Shape { Circle(double), Rectangle(double, double),
Triangle(double, double, double) }` over a number type `D`. -/
inductive Shape (D : Type) where
  | Circle (_0 : D)
  | Rectangle (_0 _1 : D)
  | Triangle (_0 _1 _2 : D)
deriving DecidableEq, Repr

/-- One arm `pattern => body` of a match: the pattern tests the value and
extracts its bindings, the body computes from the bindings. -/
structure MatchArm (V Res : Type) where
  Bindings : Type
  pattern : V → Option Bindings
  body : Bindings → Res

/-- Modelled from the spec: the dispatch of a match, whose lowering by the
translator is not among the sources: "arms evaluated in textual order; first
matching pattern wins". The result is the position of the selected arm and the
value of its body, or `none` when no arm matches. -/
def select_arm {V Res : Type} : List (MatchArm V Res) → V → Option (Nat × Res)
  | [], _ => none
  | arm :: rest, v =>
    match arm.pattern v with
    | some b => some (0, arm.body b)
    | none => (select_arm rest v).map (fun p => (p.1 + 1, p.2))

section calculate_area
variable {D : Type} [Add D] [Sub D] [Mul D] [Div D] [OfScientific D]

/-- Arm 0: `Circle(r) => 3.14159 * r * r`. -/
def circle_arm : MatchArm (Shape D) D where
  Bindings := D
  pattern := fun shape => match shape with
    | .Circle r => some r
    | _ => none
  body := fun r => 3.14159 * r * r

/-- Arm 1: `Rectangle(w, h) => w * h`. -/
def rectangle_arm : MatchArm (Shape D) D where
  Bindings := D × D
  pattern := fun shape => match shape with
    | .Rectangle w h => some (w, h)
    | _ => none
  body := fun p => p.1 * p.2

/-- The Heron block of arm 2:
`const auto s = (a + b + c) / 2.0; return (s * (s - a) * (s - b) * (s - c)).sqrt();` -/
def heron (sqrt : D → D) (a b c : D) : D :=
  let s := (a + b + c) / 2.0
  sqrt (s * (s - a) * (s - b) * (s - c))

/-- Arm 2: `Triangle(a, b, c) => { ... }`. -/
def triangle_arm (sqrt : D → D) : MatchArm (Shape D) D where
  Bindings := D × D × D
  pattern := fun shape => match shape with
    | .Triangle a b c => some (a, b, c)
    | _ => none
  body := fun p => heron sqrt p.1 p.2.1 p.2.2

/-- Arm 3: the wildcard `_ => 0.0`. -/
def wildcard_arm : MatchArm (Shape D) D where
  Bindings := Unit
  pattern := fun _ => some ()
  body := fun _ => 0.0

/-- The arms of the match in `calculate_area`, in textual order. -/
def calculate_area_arms (sqrt : D → D) : List (MatchArm (Shape D) D) :=
  [circle_arm, rectangle_arm, triangle_arm sqrt, wildcard_arm]

/-- The function `calculate_area(shape)`: the value of the selected arm. -/
def calculate_area (sqrt : D → D) (shape : Shape D) : Option D :=
  (select_arm (calculate_area_arms sqrt) shape).map Prod.snd

end calculate_area

/-- The position of a variant in the declaration of `Shape`. -/
def Shape.tag {D : Type} : Shape D → Nat
  | .Circle _ => 0
  | .Rectangle _ _ => 1
  | .Triangle _ _ _ => 2


/-! ## Concrete programs and states used as instances -/

/-- The state of a host mutex right after the calling thread took it. -/
def StdMutex.taken (m : StdMutex) : StdMutex :=
  { m with owner := some .self, acquired := m.acquired + 1 }

/-- An arithmetic step that leaves a mark in the state: it adds one to the
counter and yields `1`. -/
def marking_arith (_op : Operator) : Stmt Nat (Expected Int CalcError) (Expected Int CalcError) :=
  fun n => (.normal (.value 1), n + 1)

/-- A heap of objects built as `nu::Mutex<int32_t>(5)`: every host lock is
available, nothing pending, no acquisition or release recorded yet. -/
def fresh_world : World Int := fun _ =>
  { _mtx := { owner := none, fault := none, acquired := 0, released := 0 }, _data := 5 }

/-- The same heap when the host refuses the next acquire with `what`. -/
def faulty_world (what : String) : World Int := fun _ =>
  { _mtx := { owner := none, fault := some what, acquired := 0, released := 0 }, _data := 5 }

/-- The same heap while another thread holds every lock. -/
def held_world : World Int := fun _ =>
  { _mtx := { owner := some .other, fault := none, acquired := 1, released := 0 }, _data := 5 }

/-- A guarded block that completes normally: `*guard = 10;`. -/
def body_straight (guard : LockGuard) : Stmt (World Int) (Expected Int Error) Unit :=
  guard.assign 10

/-- A guarded block left by an early return:
`*guard = 10; NU_TRY(later); *guard = 20;` where `later` fails. -/
def body_early_return (guard : LockGuard) : Stmt (World Int) (Expected Int Error) Unit :=
  Stmt.seq (guard.assign 10) (fun _ =>
    Stmt.seq (NU_TRY (T := Unit) (Stmt.pure (.unexpected (Error.mk "later call failed"))))
      (fun _ => guard.assign 20))

/-- A guarded block left by an exception:
`*guard = 10; NU_UNWRAP(later); *guard = 20;` where `later` fails. -/
def body_unwind (guard : LockGuard) : Stmt (World Int) (Expected Int Error) Unit :=
  Stmt.seq (guard.assign 10) (fun _ =>
    Stmt.seq (NU_UNWRAP (T := Unit) (Stmt.pure (.unexpected (Error.mk "boom"))))
      (fun _ => guard.assign 20))

/-- A heap of objects built as `nu::RwLock<int32_t>(5)`, locks free. -/
def fresh_rw_world : RwWorld Int := fun _ =>
  { _mtx := { writer := none, readers := 0, fault := none, acquired := 0, released := 0 },
    _data := 5 }

/-- The same heap when the host refuses the next acquire with `what`. -/
def faulty_rw_world (what : String) : RwWorld Int := fun _ =>
  { _mtx := { writer := none, readers := 0, fault := some what, acquired := 0, released := 0 },
    _data := 5 }

/-! # Theorems -/

/-! ## Propagation: `NU_TRY`, `NU_UNWRAP` -/

/-- C1: `NU_TRY` applied to an expression that yields a success holding `v`
evaluates to `v` and the function continues with the rest `k` of its body;
applied to one that yields a failure holding `e`, it makes the enclosing
function return at once with a failure holding exactly `e`: the macro produces
no value, the rest `k` does not run, and the state is the one the expression
left. -/
theorem NU_TRY_propagation {σ R T E : Type} (expr : Stmt σ (Expected R E) (Expected T E))
    (k : T → Stmt σ (Expected R E) (Expected R E)) (s s1 : σ) :
    (∀ v : T, expr s = (.normal (.value v), s1) →
      NU_TRY expr s = (.normal v, s1) ∧ Stmt.seq (NU_TRY expr) k s = k v s1) ∧
    (∀ e : E, expr s = (.normal (.unexpected e), s1) →
      NU_TRY expr s = (.returned (.unexpected e), s1) ∧
      Stmt.seq (NU_TRY expr) k s = (.returned (.unexpected e), s1) ∧
      call (C := Unit) (Stmt.seq (NU_TRY expr) k) s = (.normal (.unexpected e), s1)) := by
  refine ⟨fun v h => ?_, fun e h => ?_⟩
  · simp [NU_TRY, Stmt.seq, h]
  · simp [NU_TRY, Stmt.seq, call, h]

/-- Witness of C1: a site that succeeds with `5` lets the rest add one; a site
that fails with `"bad"` makes the function return that failure. -/
theorem NU_TRY_propagation_witness :
    Stmt.seq (NU_TRY (Stmt.pure (.value 5)))
        (fun v => (Stmt.pure (.value (v + 1)) : Stmt Nat (Expected Nat Error) (Expected Nat Error))) 0
      = (.normal (.value 6), 0) ∧
    call (C := Unit) (Stmt.seq (NU_TRY (Stmt.pure (Expected.unexpected (Error.mk "bad")) :
          Stmt Nat (Expected Nat Error) (Expected Nat Error)))
        (fun v => Stmt.pure (.value (v + 1)))) 0
      = (.normal (.unexpected (Error.mk "bad")), 0) :=
  ⟨((NU_TRY_propagation (Stmt.pure (.value 5)) _ 0 0).1 5 rfl).2,
   ((NU_TRY_propagation (Stmt.pure (.unexpected (Error.mk "bad"))) _ 0 0).2 _ rfl).2.2⟩

theorem c_str_of_no_NUL (msg : String) (h : ∀ c ∈ msg.data, c ≠ NUL) : c_str msg = msg := by
  have ht : msg.data.takeWhile (fun c => decide (c ≠ NUL)) = msg.data :=
    List.takeWhile_eq_self_iff.mpr (fun c hc => by simpa using h c hc)
  simp only [c_str, ht]

/-- C7: `NU_UNWRAP` applied to an expression that yields a success
holding `v` evaluates to `v`; applied to one that yields a failure holding the
`nu::Error` `e`, it throws: no value is produced, the rest `k` of the
computation does not run, the enclosing function ends by that exception
instead of returning a value, and the exception carries `e.message` up to its
first NUL character, which is exactly `e.message` when the message holds no
NUL. -/
theorem NU_UNWRAP_panics {σ R T : Type} (expr : Stmt σ R (Expected T Error))
    (k : T → Stmt σ R R) (s s1 : σ) :
    (∀ v : T, expr s = (.normal (.value v), s1) →
      NU_UNWRAP expr s = (.normal v, s1) ∧ Stmt.seq (NU_UNWRAP expr) k s = k v s1) ∧
    (∀ e : Error, expr s = (.normal (.unexpected e), s1) →
      NU_UNWRAP expr s = (.thrown (c_str e.message), s1) ∧
      Stmt.seq (NU_UNWRAP expr) k s = (.thrown (c_str e.message), s1) ∧
      call (C := Unit) (Stmt.seq (NU_UNWRAP expr) k) s = (.thrown (c_str e.message), s1) ∧
      ((∀ c ∈ e.message.data, c ≠ NUL) →
        NU_UNWRAP expr s = (.thrown e.message, s1) ∧
        Stmt.seq (NU_UNWRAP expr) k s = (.thrown e.message, s1) ∧
        call (C := Unit) (Stmt.seq (NU_UNWRAP expr) k) s = (.thrown e.message, s1))) := by
  refine ⟨fun v h => ?_, fun e h => ⟨?_, ?_, ?_, fun hn => ?_⟩⟩
  · simp [NU_UNWRAP, Stmt.seq, h]
  · simp [NU_UNWRAP, h]
  · simp [NU_UNWRAP, Stmt.seq, h]
  · simp [NU_UNWRAP, Stmt.seq, call, h]
  · simp [NU_UNWRAP, Stmt.seq, call, h, c_str_of_no_NUL e.message hn]

/-- Witness of C7: unwrapping a success `5` lets the rest add one; unwrapping
the failure `"bad"`, a message without NUL, ends the function by an exception
whose text is `"bad"`. -/
theorem NU_UNWRAP_panics_witness :
    Stmt.seq (NU_UNWRAP (Stmt.pure (.value 5)))
        (fun v => (Stmt.pure (v + 1) : Stmt Nat Nat Nat)) 0 = (.normal 6, 0) ∧
    call (C := Unit) (Stmt.seq (NU_UNWRAP (Stmt.pure (Expected.unexpected (Error.mk "bad")) :
          Stmt Nat Nat (Expected Nat Error)))
        (fun v => Stmt.pure (v + 1))) 0
      = (.thrown "bad", 0) :=
  ⟨((NU_UNWRAP_panics (Stmt.pure (.value 5)) _ 0 0).1 5 rfl).2,
   (((NU_UNWRAP_panics (Stmt.pure (.unexpected (Error.mk "bad"))) _ 0 0).2 _ rfl).2.2.2
      (by decide)).2.2⟩

/-- C7 without the condition on NUL does not hold: for the failure holding `Error("a\0b")` the exception thrown by `NU_UNWRAP` reads
`"a"`, which is not the message. -/
theorem NU_UNWRAP_embedded_NUL :
    NU_UNWRAP (Stmt.pure (Expected.unexpected (Error.mk "a\x00b")) :
        Stmt Nat Nat (Expected Nat Error)) 0 = (.thrown "a", 0) ∧
    ¬ (NU_UNWRAP (Stmt.pure (Expected.unexpected (Error.mk "a\x00b")) :
        Stmt Nat Nat (Expected Nat Error)) 0
      = (.thrown (Error.mk "a\x00b").message, 0)) := by
  refine ⟨by decide, by decide⟩

/-- C2: in a body made of the propagation site `f`, then the propagation site
`g`, then further computation `rest`: when `f` yields a failure `e`, the
function's result is the failure `e`, the state is the one `f` left and only
`f` was logged, so `g` and `rest` were not evaluated; when `f` yields a success
`a`, the run goes on with `g a` from the state `f` left and `g` is logged
exactly once more. For the calculator: a conversion that fails on `"%"` with
`InvalidOperator` ends the function with that error before the arithmetic. -/
theorem propagation_short_circuit {σ R A B E : Type}
    (f : Stmt σ (Expected R E) (Expected A E))
    (g : A → Stmt σ (Expected R E) (Expected B E))
    (rest : A → B → Stmt σ (Expected R E) (Expected R E))
    (s s1 : σ) (log : List String) :
    (∀ e : E, f s = (.normal (.unexpected e), s1) →
      call (C := Unit) (two_try_body f g rest) (s, log)
        = (.normal (.unexpected e), (s1, log ++ ["f"]))) ∧
    (∀ a : A, f s = (.normal (.value a), s1) →
      two_try_body f g rest (s, log)
        = Stmt.seq (NU_TRY (traced "g" (g a))) (fun b => traced "rest" (rest a b))
            (s1, log ++ ["f"]) ∧
      (two_try_body f g rest (s, log)).2.2.count "g" = log.count "g" + 1) ∧
    (∀ (conv : String → Expected Operator CalcError) (p : String)
        (arith : Operator → Stmt σ (Expected Int CalcError) (Expected Int CalcError))
        (after : Operator → Int → Stmt σ (Expected Int CalcError) (Expected Int CalcError)),
      conv "%" = .unexpected (.InvalidOperator p) →
      call (C := Unit) (two_try_body (Stmt.pure (conv "%")) arith after) (s, log)
        = (.normal (.unexpected (.InvalidOperator p)), (s, log ++ ["f"]))) := by
  refine ⟨fun e h => ?_, fun a h => ⟨?_, ?_⟩, fun conv p arith after h => ?_⟩
  · simp [two_try_body, NU_TRY, Stmt.seq, call, traced, h]
  · simp [two_try_body, NU_TRY, Stmt.seq, traced, h]
  · simp only [two_try_body, NU_TRY, Stmt.seq, traced, h]
    rcases hg : g a s1 with ⟨fl, s2⟩
    rcases fl with r | r | w | _
    · rcases r with b | e
      · simp only []
        rcases hr : rest a b s2 with ⟨fl2, s3⟩
        simp [List.count_append, List.count_cons]
      · simp [List.count_append, List.count_cons]
    all_goals simp [List.count_append, List.count_cons]
  · simp [two_try_body, NU_TRY, Stmt.seq, call, traced, Stmt.pure, h]

/-- Witness of C2: a first site failing with `DivisionByZero` ends the function
with that error; a first site succeeding lets the second run once; converting
`"%"` fails with `InvalidOperator "%"` and the marking arithmetic leaves the
counter at `0`. -/
theorem propagation_short_circuit_witness :
    call (C := Unit) (two_try_body (Stmt.pure (.unexpected CalcError.DivisionByZero))
        marking_arith (fun _ r => Stmt.pure (.value r))) ((0 : Nat), [])
      = (.normal (.unexpected CalcError.DivisionByZero), (0, ["f"])) ∧
    (two_try_body (Stmt.pure (.value Operator.Add)) marking_arith
        (fun _ r => Stmt.pure (.value r)) ((0 : Nat), [])).2.2.count "g" = 1 ∧
    call (C := Unit) (two_try_body (Stmt.pure (from_str "%")) marking_arith
        (fun _ r => Stmt.pure (.value r))) ((0 : Nat), [])
      = (.normal (.unexpected (CalcError.InvalidOperator "%")), (0, ["f"])) :=
  ⟨(propagation_short_circuit (Stmt.pure (.unexpected CalcError.DivisionByZero))
      marking_arith _ 0 0 []).1 _ rfl,
   ((propagation_short_circuit (Stmt.pure (.value Operator.Add))
      marking_arith _ 0 0 []).2.1 _ rfl).2,
   (propagation_short_circuit (Stmt.pure (.value Operator.Add))
      marking_arith (fun _ r => Stmt.pure (.value r)) 0 0 []).2.2 from_str "%" marking_arith _
      (by decide)⟩


/-! ## `Mutex<T>`: acquisition and guard release -/

theorem World.set_mtx_same {T : Type} (w : World T) (m : Nat) (mtx : StdMutex) :
    (w.set_mtx m mtx) m = { w m with _mtx := mtx } := by
  simp [World.set_mtx]

theorem World.set_mtx_self {T : Type} (w : World T) (m : Nat) :
    w.set_mtx m (w m)._mtx = w := by
  simp [World.set_mtx]

/-- On an available mutex without a pending host failure, `lock()` returns the
guard bound to the object and marks the host lock as taken. -/
theorem Mutex.lock_of_available {T R : Type} (w : World T) (this : Nat)
    (havail : (w this)._mtx.owner = none) (hfault : (w this)._mtx.fault = none) :
    Mutex.lock (R := R) this w
      = (.normal (.value { _lock := { pm := this, owns := true }, _ref := this }),
         w.set_mtx this (w this)._mtx.taken) := by
  simp [Mutex.lock, LockGuard.ctor, UniqueLock.ctor, StdMutex.lock, Stmt.seq, Stmt.pure,
    havail, hfault, StdMutex.taken]

/-- C5: when the host acquire raises an exception with message `m`, `lock()`
does not raise: it completes normally with a failure holding an `Error` whose
message is `m`, and the object is unchanged. When the host acquire succeeds,
`lock()` completes normally with a success holding a guard that owns the
object's lock and refers to the object's own data: reading through the guard
gives that object's `_data` and assigning through it changes that object's
`_data` and no other object. In no state does `lock()` end by an exception. -/
theorem Mutex_lock_surfaces_failure {T : Type} (w : World T) (this : Nat) :
    (∀ m : String, (StdMutex.lock (R := Unit) (w this)._mtx).1 = .thrown m →
      Mutex.lock (R := Unit) this w = (.normal (.unexpected (Error.mk m)), w)) ∧
    ((StdMutex.lock (R := Unit) (w this)._mtx).1 = .normal () →
      ∃ (g : LockGuard) (w1 : World T),
        Mutex.lock (R := Unit) this w = (.normal (.value g), w1) ∧
        g._lock = { pm := this, owns := true } ∧ g._ref = this ∧
        (w1 this)._mtx.owner = some .self ∧
        g.get w1 = (w1 this)._data ∧ (w1 this)._data = (w this)._data ∧
        ∀ v : T, (((g.assign (R := Unit) v w1).2) this)._data = v ∧
          ∀ j, j ≠ this → ((g.assign (R := Unit) v w1).2) j = w1 j) ∧
    (∀ (what : String) (w1 : World T), Mutex.lock (R := Unit) this w ≠ (.thrown what, w1)) := by
  refine ⟨fun m h => ?_, fun h => ?_, fun what w1 => ?_⟩
  · cases hf : (w this)._mtx.fault with
    | none =>
      cases ho : (w this)._mtx.owner <;> simp [StdMutex.lock, hf, ho] at h
    | some m1 =>
      simp only [StdMutex.lock, hf] at h
      injection h with h
      subst h
      simp [Mutex.lock, LockGuard.ctor, UniqueLock.ctor, StdMutex.lock, Stmt.seq, hf,
        World.set_mtx_self]
  · cases hf : (w this)._mtx.fault with
    | some m1 => simp [StdMutex.lock, hf] at h
    | none =>
      cases ho : (w this)._mtx.owner with
      | some t => simp [StdMutex.lock, hf, ho] at h
      | none =>
        refine ⟨_, _, Mutex.lock_of_available w this ho hf, rfl, rfl, ?_, ?_, ?_, ?_⟩
        · simp [World.set_mtx_same, StdMutex.taken]
        · rfl
        · simp [World.set_mtx_same]
        · intro v
          refine ⟨by simp [LockGuard.assign, World.set_data], fun j hj => ?_⟩
          simp [LockGuard.assign, World.set_data, Function.update_noteq hj]
  · cases hf : (w this)._mtx.fault with
    | some m1 =>
      simp [Mutex.lock, LockGuard.ctor, UniqueLock.ctor, StdMutex.lock, Stmt.seq, hf]
    | none =>
      cases ho : (w this)._mtx.owner <;>
        simp [Mutex.lock, LockGuard.ctor, UniqueLock.ctor, StdMutex.lock, Stmt.seq, Stmt.pure,
          hf, ho]

/-- Guard release, the part of the contract the code keeps: on an available
mutex, a block that takes the guard by `NU_TRY(m.lock())` and is then left, whichever way its body ends (normal
completion, `return`, propagating exception), has the lock held on entry to
the body and at its end, leaves by the body's own exit path, and leaves the
host lock available with exactly one acquisition and exactly one release
recorded; a following `lock()` returns a guard again and the host try-acquire
reports the lock free. The body is any code that does not operate on the host
lock of that mutex itself. -/
theorem guard_release {T R α : Type} (w : World T) (this : Nat)
    (body : LockGuard → Stmt (World T) (Expected R Error) α)
    (havail : (w this)._mtx.owner = none) (hfault : (w this)._mtx.fault = none)
    (hbody : ∀ (g : LockGuard) (s : World T), ((body g s).2 this)._mtx = (s this)._mtx)
    (hleft : (scope LockGuard.dtor (NU_TRY (Mutex.lock this)) body w).1 ≠ .blocked) :
    ∃ (guard : LockGuard) (w1 : World T),
      NU_TRY (R := R) (Mutex.lock this) w = (.normal guard, w1) ∧
      (w1 this)._mtx.owner = some .self ∧
      ((body guard w1).2 this)._mtx.owner = some .self ∧
      ((body guard w1).2 this)._mtx.released = (w this)._mtx.released ∧
      (scope LockGuard.dtor (NU_TRY (Mutex.lock this)) body w).1 = (body guard w1).1 ∧
      (scope LockGuard.dtor (NU_TRY (Mutex.lock this)) body w).2
        = LockGuard.dtor guard (body guard w1).2 ∧
      (((scope LockGuard.dtor (NU_TRY (Mutex.lock this)) body w).2) this)._mtx
        = { owner := none, fault := none,
            acquired := (w this)._mtx.acquired + 1,
            released := (w this)._mtx.released + 1 } ∧
      (∃ (g2 : LockGuard) (w2 : World T),
        Mutex.lock (R := Unit) this (scope LockGuard.dtor (NU_TRY (Mutex.lock this)) body w).2
          = (.normal (.value g2), w2)) ∧
      (StdMutex.try_lock
        (((scope LockGuard.dtor (NU_TRY (Mutex.lock this)) body w).2) this)._mtx).1 = true := by
  have hlock : NU_TRY (E := Error) (R := R) (Mutex.lock this) w
      = (.normal { _lock := { pm := this, owns := true }, _ref := this },
         w.set_mtx this (w this)._mtx.taken) := by
    simp [NU_TRY, Mutex.lock_of_available w this havail hfault]
  have hb := hbody { _lock := { pm := this, owns := true }, _ref := this }
    (w.set_mtx this (w this)._mtx.taken)
  simp only [World.set_mtx_same] at hb
  have hsc : (scope LockGuard.dtor (NU_TRY (Mutex.lock this)) body w).1
        = (body { _lock := { pm := this, owns := true }, _ref := this }
            (w.set_mtx this (w this)._mtx.taken)).1 ∧
      (scope LockGuard.dtor (NU_TRY (Mutex.lock this)) body w).2
        = LockGuard.dtor { _lock := { pm := this, owns := true }, _ref := this }
            (body { _lock := { pm := this, owns := true }, _ref := this }
              (w.set_mtx this (w this)._mtx.taken)).2 := by
    have hl := hleft
    simp only [scope, hlock] at hl ⊢
    rcases hr : body { _lock := { pm := this, owns := true }, _ref := this }
        (w.set_mtx this (w this)._mtx.taken) with ⟨fl, s2⟩
    rw [hr] at hl
    cases fl <;> simp_all
  have hfin : (((scope LockGuard.dtor (NU_TRY (Mutex.lock this)) body w).2) this)._mtx
      = { owner := none, fault := none,
          acquired := (w this)._mtx.acquired + 1,
          released := (w this)._mtx.released + 1 } := by
    rw [hsc.2]
    simp only [LockGuard.dtor, UniqueLock.dtor, World.set_mtx_same, hb, if_true]
    simp [StdMutex.unlock, StdMutex.taken, hfault]
  refine ⟨_, _, hlock, ?_, ?_, ?_, hsc.1, hsc.2, hfin, ?_, ?_⟩
  · simp [World.set_mtx_same, StdMutex.taken]
  · rw [hb]; simp [StdMutex.taken]
  · rw [hb]; simp [StdMutex.taken]
  · exact ⟨_, _, Mutex.lock_of_available _ this (by rw [hfin]) (by rw [hfin])⟩
  · rw [hfin]; rfl


/-- Witness of C5: a host that refuses the acquire with `"Operation not
permitted"` makes `lock()` return that message as a failure value; on a fresh
object `lock()` returns a guard through which the payload `5` is read. -/
theorem Mutex_lock_surfaces_failure_witness :
    Mutex.lock (R := Unit) 0 (faulty_world "Operation not permitted")
      = (.normal (.unexpected (Error.mk "Operation not permitted")),
         faulty_world "Operation not permitted") ∧
    (∃ (g : LockGuard) (w1 : World Int),
      Mutex.lock (R := Unit) 0 fresh_world = (.normal (.value g), w1) ∧
      g._lock = { pm := 0, owns := true } ∧ g._ref = 0 ∧
      (w1 0)._mtx.owner = some .self ∧
      g.get w1 = (w1 0)._data ∧ (w1 0)._data = (fresh_world 0)._data ∧
      ∀ v : Int, (((g.assign (R := Unit) v w1).2) 0)._data = v ∧
        ∀ j, j ≠ 0 → ((g.assign (R := Unit) v w1).2) j = w1 j) ∧
    Mutex.lock (R := Unit) 0 held_world ≠ (.thrown "any", held_world) :=
  ⟨(Mutex_lock_surfaces_failure (faulty_world "Operation not permitted") 0).1 _ rfl,
   (Mutex_lock_surfaces_failure fresh_world 0).2.1 rfl,
   (Mutex_lock_surfaces_failure held_world 0).2.2 "any" held_world⟩

theorem LockGuard.assign_keeps_mtx {T R : Type} (g : LockGuard) (v : T) (s : World T) (j : Nat) :
    (((g.assign (R := R) v s).2) j)._mtx = (s j)._mtx := by
  by_cases h : j = g._ref
  · subst h
    simp [LockGuard.assign, World.set_data]
  · simp [LockGuard.assign, World.set_data, Function.update_noteq h]

/-- Instance of `guard_release`: the straight-line block, the block left by the early return
of `NU_TRY` on a later failing call, and the block left by the exception of
`NU_UNWRAP` each end as said, and each leaves the host lock of a fresh mutex
free with one acquisition and one release recorded. -/
theorem guard_release_witness :
    ((scope LockGuard.dtor (NU_TRY (Mutex.lock 0)) body_straight fresh_world).1 = .normal () ∧
      (((scope LockGuard.dtor (NU_TRY (Mutex.lock 0)) body_straight fresh_world).2) 0)._mtx
        = { owner := none, fault := none, acquired := 1, released := 1 }) ∧
    ((scope LockGuard.dtor (NU_TRY (Mutex.lock 0)) body_early_return fresh_world).1
        = .returned (.unexpected (Error.mk "later call failed")) ∧
      (((scope LockGuard.dtor (NU_TRY (Mutex.lock 0)) body_early_return fresh_world).2) 0)._mtx
        = { owner := none, fault := none, acquired := 1, released := 1 }) ∧
    ((scope LockGuard.dtor (NU_TRY (Mutex.lock 0)) body_unwind fresh_world).1 = .thrown "boom" ∧
      (((scope LockGuard.dtor (NU_TRY (Mutex.lock 0)) body_unwind fresh_world).2) 0)._mtx
        = { owner := none, fault := none, acquired := 1, released := 1 }) := by
  refine ⟨⟨by decide, ?_⟩, ⟨by decide, ?_⟩, ⟨by decide, ?_⟩⟩
  · obtain ⟨_, _, _, _, _, _, _, _, h, _⟩ := guard_release fresh_world 0 body_straight rfl rfl
      (fun g s => LockGuard.assign_keeps_mtx g 10 s 0) (by decide)
    exact h
  · obtain ⟨_, _, _, _, _, _, _, _, h, _⟩ := guard_release fresh_world 0 body_early_return rfl rfl
      (fun g s => by
        simp only [body_early_return, Stmt.seq, NU_TRY, Stmt.pure, LockGuard.assign]
        exact LockGuard.assign_keeps_mtx (R := Unit) g 10 s 0) (by decide)
    exact h
  · obtain ⟨_, _, _, _, _, _, _, _, h, _⟩ := guard_release fresh_world 0 body_unwind rfl rfl
      (fun g s => by
        simp only [body_unwind, Stmt.seq, NU_UNWRAP, Stmt.pure, LockGuard.assign]
        exact LockGuard.assign_keeps_mtx (R := Unit) g 10 s 0) (by decide)
    exact h

/-- C3 at a fresh mutex: the straight-line block, the block left by the early
return of `NU_TRY`, and the block left by the exception of `NU_UNWRAP` each
leave the host lock free with one acquisition and one release recorded, and a
following `lock()` returns a guard; a following `try_lock()` does not succeed:
it takes the free lock and then blocks acquiring it a second time while
constructing the guard. -/
theorem try_lock_after_release_blocks :
    ((((scope LockGuard.dtor (NU_TRY (Mutex.lock 0)) body_straight fresh_world).2) 0)._mtx
        = { owner := none, fault := none, acquired := 1, released := 1 } ∧
      (Mutex.lock (R := Unit) 0
          (scope LockGuard.dtor (NU_TRY (Mutex.lock 0)) body_straight fresh_world).2).1
        = .normal (.value { _lock := { pm := 0, owns := true }, _ref := 0 }) ∧
      (Mutex.try_lock (R := Unit) 0
          (scope LockGuard.dtor (NU_TRY (Mutex.lock 0)) body_straight fresh_world).2).1
        = .blocked) ∧
    ((((scope LockGuard.dtor (NU_TRY (Mutex.lock 0)) body_early_return fresh_world).2) 0)._mtx
        = { owner := none, fault := none, acquired := 1, released := 1 } ∧
      (Mutex.lock (R := Unit) 0
          (scope LockGuard.dtor (NU_TRY (Mutex.lock 0)) body_early_return fresh_world).2).1
        = .normal (.value { _lock := { pm := 0, owns := true }, _ref := 0 }) ∧
      (Mutex.try_lock (R := Unit) 0
          (scope LockGuard.dtor (NU_TRY (Mutex.lock 0)) body_early_return fresh_world).2).1
        = .blocked) ∧
    ((((scope LockGuard.dtor (NU_TRY (Mutex.lock 0)) body_unwind fresh_world).2) 0)._mtx
        = { owner := none, fault := none, acquired := 1, released := 1 } ∧
      (Mutex.lock (R := Unit) 0
          (scope LockGuard.dtor (NU_TRY (Mutex.lock 0)) body_unwind fresh_world).2).1
        = .normal (.value { _lock := { pm := 0, owns := true }, _ref := 0 }) ∧
      (Mutex.try_lock (R := Unit) 0
          (scope LockGuard.dtor (NU_TRY (Mutex.lock 0)) body_unwind fresh_world).2).1
        = .blocked) := by
  refine ⟨⟨by decide, by decide, by decide⟩, ⟨by decide, by decide, by decide⟩,
    ⟨by decide, by decide, by decide⟩⟩

/-- C4 at a fresh mutex: `try_lock()` takes the host lock by
`_mtx.try_lock()` and then, constructing the guard, acquires the same host
lock again; the call never comes back with a guard and the host lock stays
held with a single acquisition and no release. On a mutex held by another
thread it returns absence and leaves the heap as it was. -/
theorem try_lock_available_never_returns :
    (Mutex.try_lock (R := Unit) 0 fresh_world).1 = .blocked ∧
    (((Mutex.try_lock (R := Unit) 0 fresh_world).2) 0)._mtx
      = { owner := some .self, fault := none, acquired := 1, released := 0 } ∧
    Mutex.try_lock (R := Unit) 0 held_world = (.normal none, held_world) := by
  refine ⟨by decide, by decide, rfl⟩

/-- C6 at a host that refuses the acquire with `"Resource deadlock avoided"`:
`write()` and `read()` end by the exception itself, not by a failure value,
while `Mutex::lock()` on the same refusal returns the failure value; on free
locks `read()` and `write()` return a guard. -/
theorem RwLock_acquire_failure_escapes :
    (RwLock.write (R := Unit) 0 (faulty_rw_world "Resource deadlock avoided")).1
      = .thrown "Resource deadlock avoided" ∧
    (RwLock.read (R := Unit) 0 (faulty_rw_world "Resource deadlock avoided")).1
      = .thrown "Resource deadlock avoided" ∧
    (Mutex.lock (R := Unit) 0 (faulty_world "Resource deadlock avoided")).1
      = .normal (.unexpected (Error.mk "Resource deadlock avoided")) ∧
    (RwLock.read (R := Unit) 0 fresh_rw_world).1
      = .normal (.value { _lock := { pm := 0, owns := true }, _ref := 0 }) ∧
    (RwLock.write (R := Unit) 0 fresh_rw_world).1
      = .normal (.value { _lock := { pm := 0, owns := true }, _ref := 0 }) := by
  refine ⟨by decide, by decide, by decide, by decide, by decide⟩

/-! ## Enumerate loop -/

theorem counter_loop_eq {α σ : Type} (history : List α) (body : Nat → α → σ → σ) :
    ∀ (fuel i : Nat) (s : σ), history.length ≤ i + fuel →
      counter_loop history body fuel i s
        = ((history.drop i).enumFrom i).foldl (fun acc p => body p.1 p.2 acc) s := by
  intro fuel
  induction fuel with
  | zero =>
    intro i s h
    have hd : history.drop i = [] := List.drop_eq_nil_of_le (by omega)
    simp [counter_loop, hd]
  | succ fuel ih =>
    intro i s h
    by_cases hi : i < history.length
    · have hget : history[i]? = some history[i] := List.getElem?_eq_getElem hi
      rw [List.drop_eq_getElem_cons hi]
      simp only [counter_loop, hget, List.enumFrom_cons, List.foldl_cons]
      exact ih (i + 1) _ (by omega)
    · have hnone : history[i]? = none := List.getElem?_eq_none (by omega)
      have hd : history.drop i = [] := List.drop_eq_nil_of_le (by omega)
      simp [counter_loop, hnone, hd]

theorem foldl_record_visit {α : Type} (l init : List (Nat × α)) :
    l.foldl (fun acc p => record_visit p.1 p.2 acc) init = init ++ l := by
  induction l generalizing init with
  | nil => simp
  | cons p l ih =>
    rw [List.foldl_cons, ih]
    simp [record_visit]

/-- C8: for every collection `history`, of any length `N`, the counter loop
that the for-enumerate loop of `test_enumerate` lowers to runs the body the
same way as the loop over the enumerating iterator, for every body and state;
the iterations it performs are exactly `N`, the `k`-th one seeing the index `k`
and the `k`-th element, in order; on the empty collection the body does not
run and the state is returned as it was; and `["a","b","c"]` gives
`(0,"a"), (1,"b"), (2,"c")`, printed as three lines. -/
theorem enumerate_correct {α σ : Type} (history : List α) :
    (∀ (body : Nat → α → σ → σ) (s : σ),
      lowered_enumerate history body s = for_enumerate history body s) ∧
    (lowered_enumerate history record_visit []).length = history.length ∧
    (∀ k : Nat, (lowered_enumerate history record_visit [])[k]?
      = (history[k]?).map (fun record => (k, record))) ∧
    (∀ (body : Nat → α → σ → σ) (s : σ), lowered_enumerate ([] : List α) body s = s) ∧
    lowered_enumerate ["a", "b", "c"] record_visit [] = [(0, "a"), (1, "b"), (2, "c")] ∧
    test_enumerate id ["a", "b", "c"] ""
      = "Index: 0, Record: a\nIndex: 1, Record: b\nIndex: 2, Record: c\n" ∧
    test_enumerate (fun record : String => record) [] "" = "" := by
  have hlow : ∀ {τ : Type} (body : Nat → α → τ → τ) (s : τ),
      lowered_enumerate history body s = for_enumerate history body s := by
    intro τ body s
    simp [lowered_enumerate, for_enumerate, counter_loop_eq history body history.length 0 s,
      List.enum_eq_enumFrom]
  have hvis : lowered_enumerate history record_visit [] = history.enum := by
    rw [hlow]
    simp [for_enumerate, foldl_record_visit]
  refine ⟨fun body s => hlow body s, ?_, ?_, ?_, ?_, ?_, ?_⟩
  · rw [hvis]; simp
  · intro k
    rw [hvis, List.getElem?_enum]
  · intro body s
    rfl
  · rfl
  · decide
  · rfl

/-! ## Match dispatch -/

/-- C9: for every value of `Shape`, the match of `calculate_area` selects the
arm at the position of the variant that built the value, its pattern binds
that variant's payload components in declaration order, and the result is that
arm's body on them (`3.14159 * r * r`, `w * h`, the Heron block); the trailing
wildcard arm at position 3 matches every value and is never the one selected. -/
theorem calculate_area_dispatch {D : Type} [Add D] [Sub D] [Mul D] [Div D] [OfScientific D]
    (sqrt : D → D) :
    (∀ r : D, circle_arm.pattern (Shape.Circle r) = some r ∧
      select_arm (calculate_area_arms sqrt) (.Circle r) = some (0, 3.14159 * r * r) ∧
      calculate_area sqrt (.Circle r) = some (3.14159 * r * r)) ∧
    (∀ w h : D, rectangle_arm.pattern (Shape.Rectangle w h) = some (w, h) ∧
      select_arm (calculate_area_arms sqrt) (.Rectangle w h) = some (1, w * h) ∧
      calculate_area sqrt (.Rectangle w h) = some (w * h)) ∧
    (∀ a b c : D, (triangle_arm sqrt).pattern (Shape.Triangle a b c) = some (a, b, c) ∧
      select_arm (calculate_area_arms sqrt) (.Triangle a b c)
        = some (2, sqrt ((a + b + c) / 2.0 * ((a + b + c) / 2.0 - a) * ((a + b + c) / 2.0 - b)
            * ((a + b + c) / 2.0 - c))) ∧
      calculate_area sqrt (.Triangle a b c) = some (heron sqrt a b c)) ∧
    (∀ shape : Shape D,
      (select_arm (calculate_area_arms sqrt) shape).map Prod.fst = some shape.tag ∧
      shape.tag < 3 ∧
      (wildcard_arm (D := D)).pattern shape = some ()) ∧
    ((calculate_area_arms sqrt).map (fun arm => (arm.pattern (Shape.Circle 1.5)).isSome)
      = [true, false, false, true]) := by
  refine ⟨fun r => ⟨rfl, rfl, rfl⟩, fun w h => ⟨rfl, rfl, rfl⟩, fun a b c => ⟨rfl, rfl, rfl⟩,
    fun shape => ?_, rfl⟩
  cases shape <;> exact ⟨rfl, by simp [Shape.tag], rfl⟩


/-! ## `hash_combine` -/

theorem add64_chain (value a b : Nat) :
    add64 (add64 (add64 value 0x9e3779b9) a) b = (value + 0x9e3779b9 + a + b) % 2 ^ 64 := by
  simp only [add64, SIZE_MOD]
  omega

theorem sub_then_add_mod (x a b k : Nat) (hx : x < 2 ^ 64)
    (hk : (0x9e3779b9 + a + b) % 2 ^ 64 = k) :
    ((x + (2 ^ 64 - k)) % 2 ^ 64 + 0x9e3779b9 + a + b) % 2 ^ 64 = x := by
  omega

theorem hash_combine_eq (seed value : Nat) :
    hash_combine seed value
      = seed ^^^ ((value + 0x9e3779b9 + (seed <<< 6) % 2 ^ 64 + (seed >>> 2)) % 2 ^ 64) := by
  simp only [hash_combine, add64_chain, shl64, SIZE_MOD]

theorem hash_combine_inj (s v1 v2 : Nat) (h1 : v1 < 2 ^ 64) (h2 : v2 < 2 ^ 64)
    (h : hash_combine s v1 = hash_combine s v2) : v1 = v2 := by
  rw [hash_combine_eq, hash_combine_eq] at h
  have h3 := Nat.xor_right_injective h
  generalize (s <<< 6) % 2 ^ 64 = a at h3
  generalize s >>> 2 = b at h3
  omega

/-- C10: with `std::size_t` arithmetic modulo `2 ^ 64`, `hash_combine` sets the
seed to `seed XOR (value + 0x9e3779b9 + (seed << 6) + (seed >> 2))`; for every
fixed seed, two distinct 64-bit values give distinct new seeds, every 64-bit
word is the new seed of some 64-bit value, and the new seed is a 64-bit word;
so two component lists that agree except in their last component hash, with
distinct last component hashes, get distinct structural hashes. -/
theorem hash_combine_distinct :
    (∀ seed value : Nat,
      hash_combine seed value
        = seed ^^^ ((value + 0x9e3779b9 + (seed <<< 6) + (seed >>> 2)) % 2 ^ 64)) ∧
    (∀ s v1 v2 : Nat, v1 < 2 ^ 64 → v2 < 2 ^ 64 → v1 ≠ v2 →
      hash_combine s v1 ≠ hash_combine s v2) ∧
    (∀ s t : Nat, s < 2 ^ 64 → t < 2 ^ 64 → ∃ v, v < 2 ^ 64 ∧ hash_combine s v = t) ∧
    (∀ s v : Nat, s < 2 ^ 64 → hash_combine s v < 2 ^ 64) ∧
    (∀ (front : List Nat) (v1 v2 : Nat), v1 < 2 ^ 64 → v2 < 2 ^ 64 → v1 ≠ v2 →
      structural_hash (front ++ [v1]) ≠ structural_hash (front ++ [v2])) := by
  refine ⟨fun seed value => ?_, fun s v1 v2 h1 h2 hne h => hne (hash_combine_inj s v1 v2 h1 h2 h),
    fun s t hs ht => ?_, fun s v hs => ?_, fun front v1 v2 h1 h2 hne h => ?_⟩
  · rw [hash_combine_eq]
    congr 1
    omega
  · have hx : s ^^^ t < 2 ^ 64 := Nat.xor_lt_two_pow hs ht
    generalize hk : (0x9e3779b9 + (s <<< 6) % 2 ^ 64 + (s >>> 2)) % 2 ^ 64 = k
    have hklt : k < 2 ^ 64 := by rw [← hk]; exact Nat.mod_lt _ (by norm_num)
    refine ⟨((s ^^^ t) + (2 ^ 64 - k)) % 2 ^ 64, Nat.mod_lt _ (by norm_num), ?_⟩
    rw [hash_combine_eq]
    have hsum : (((s ^^^ t) + (2 ^ 64 - k)) % 2 ^ 64 + 0x9e3779b9 + (s <<< 6) % 2 ^ 64 + (s >>> 2))
        % 2 ^ 64 = s ^^^ t := sub_then_add_mod _ _ _ _ hx hk
    rw [hsum, ← Nat.xor_assoc, Nat.xor_self, Nat.zero_xor]
  · rw [hash_combine_eq]
    exact Nat.xor_lt_two_pow hs (Nat.mod_lt _ (by norm_num))
  · simp only [structural_hash, List.foldl_append, List.foldl_cons, List.foldl_nil] at h
    exact hne (hash_combine_inj _ v1 v2 h1 h2 h)

/-- Witness of C10: from the seed `0`, the values `1` and `2` give different
seeds, and the component lists `[7, 1]` and `[7, 2]` hash differently. -/
theorem hash_combine_distinct_witness :
    hash_combine 0 1 ≠ hash_combine 0 2 ∧
    structural_hash ([7] ++ [1]) ≠ structural_hash ([7] ++ [2]) ∧
    hash_combine 0 1 < 2 ^ 64 ∧
    (∃ v, v < 2 ^ 64 ∧ hash_combine 0 v = 5) ∧
    hash_combine 3 4 = 3 ^^^ ((4 + 0x9e3779b9 + (3 <<< 6) + (3 >>> 2)) % 2 ^ 64) :=
  ⟨hash_combine_distinct.2.1 0 1 2 (by norm_num) (by norm_num) (by decide),
   hash_combine_distinct.2.2.2.2 [7] 1 2 (by norm_num) (by norm_num) (by decide),
   hash_combine_distinct.2.2.2.1 0 1 (by norm_num),
   hash_combine_distinct.2.2.1 0 5 (by norm_num) (by norm_num),
   hash_combine_distinct.1 3 4⟩

end nu
